import Mathlib

/-!
Verification development for the bellpepper.ai-proxy repository.

The repository contains three variants of the same Vercel request-time
script-assembler function:

* `api/loader.js` lines 1-124: the v1.5 serverless handler
  (`getFileFromGitHub`, `handler`), embedded here as `getFileFromGitHub`
  and `handlerV15`;
* `api/loader.js` lines 126-199: an edge-runtime variant
  (`fetchFromGitHub`, `handler`), embedded here as `fetchFromGitHub`
  and `edgeHandler`;
* `src/unnamed/part_000`: the v1.2 serverless handler, embedded here as
  `getFileFromGitHubNR` and `handlerV12`.

The HTTP transport is abstracted as a store oracle: a function from the
addressed file (path, and for v1.5 the git ref that is appended as the
`?ref=` query of the GitHub contents URL) to the outcome of the `fetch`
call.  `HttpResult.success body` is a `response.ok` response whose
`text()` is `body`; `HttpResult.failure status` is a non-ok response with
the given status code; `HttpResult.netError` is a rejected `fetch`
promise.  Environment variables are an explicit `Env` record read once,
exactly as the module-level `process.env` reads in the source.  Each
handler is given a trace component recording, in issue order, the file
requests it makes, so that claims about which fetches happen are
statable.
-/

namespace BellpepperProxy

/-- Outcome of one `fetch` of the GitHub contents URL for a file. -/
inductive HttpResult where
  | success (body : String)
  | failure (status : Nat)
  | netError
deriving DecidableEq

/-- The remote content store as seen by the v1.5 handler: addressed by
(path, ref), since the v1.5 URL carries `?ref=` with the branch. -/
abbrev Store := String → String → HttpResult

/-- The remote content store as seen by the v1.2 and edge handlers:
addressed by path only (their URLs carry no `ref` query). -/
abbrev StoreNR := String → HttpResult

/-- The error thrown by `getFileFromGitHub` (v1.5 and v1.2) on a non-ok,
non-404 response, and the rejection of a failed `fetch`.  The spec calls
this class of failures `RemoteUnavailable`; the handlers never inspect
the error value. -/
inductive FetchErr where
  | RemoteUnavailable
deriving DecidableEq

/-- The errors thrown by the edge variant `fetchFromGitHub`: a 404
throws a distinct file-not-found error, any other non-ok status throws
an API error, and a rejected `fetch` propagates as a network error. -/
inductive EdgeFetchErr where
  | fileNotFound (path : String)
  | apiError (path : String) (status : Nat)
  | network
deriving DecidableEq

/-- The environment variables the module reads at load time
(`GITHUB_TOKEN`, `REPO_OWNER`, `REPO_NAME` only parameterize the fetch
URL, which the store oracle abstracts; `VERCEL_GIT_COMMIT_REF` and
`VERCEL_ENV` drive branch and cache-mode selection in v1.5). -/
structure Env where
  GITHUB_TOKEN : Option String
  REPO_OWNER : Option String
  REPO_NAME : Option String
  VERCEL_GIT_COMMIT_REF : Option String
  VERCEL_ENV : Option String

/-- JavaScript `a || d` on an environment variable: an unset variable
and the empty string are both falsy and fall through to the default. -/
def jsOr : Option String → String → String
  | none, d => d
  | some s, d => if s = "" then d else s

/-- `const GIT_BRANCH = process.env.VERCEL_GIT_COMMIT_REF || 'main';` -/
def gitBranch (env : Env) : String := jsOr env.VERCEL_GIT_COMMIT_REF "main"

/-- `const VERCEL_ENV = process.env.VERCEL_ENV || 'development';` -/
def vercelEnvD (env : Env) : String := jsOr env.VERCEL_ENV "development"

/-- The inbound request: method, URL pathname, and the query as the
`searchParams.get` lookup function (`none` is a missing parameter). -/
structure Request where
  method : String
  pathname : String
  query : String → Option String

/-- An HTTP response: status, body, and the headers set on it, in the
order the code sets them. -/
structure Response where
  status : Nat
  body : String
  headers : List (String × String)
deriving DecidableEq

/-- `'configs/chatbot-core.js'` -/
def coreScriptPath : String := "configs/chatbot-core.js"

/-- `` `configs/customers/$\x7bcustomerId\x7d.json` `` -/
def customerConfigPath (customerId : String) : String :=
  "configs/customers/" ++ customerId ++ ".json"

/-- `'configs/default.json'` -/
def defaultConfigPath : String := "configs/default.json"

/-- v1.5 `getFileFromGitHub(path, ref)`: returns the body on `ok`,
`null` (here `none`) on 404, and throws on any other non-ok status; a
rejected `fetch` also propagates as a thrown error. -/
def getFileFromGitHub (store : Store) (path ref : String) :
    Except FetchErr (Option String) :=
  match store path ref with
  | .success body => .ok (some body)
  | .failure status => if status = 404 then .ok none else .error .RemoteUnavailable
  | .netError => .error .RemoteUnavailable

/-- v1.5 `getFileFromGitHub` together with the single HTTP request it
issues: one call performs exactly one request to the store, with no
retry. -/
def getFileFromGitHubT (store : Store) (path ref : String) :
    Except FetchErr (Option String) × List (String × String) :=
  (getFileFromGitHub store path ref, [(path, ref)])

/-- v1.2 `getFileFromGitHub(path)` (no ref parameter): same 404-to-null
mapping as v1.5. -/
def getFileFromGitHubNR (store : StoreNR) (path : String) :
    Except FetchErr (Option String) :=
  match store path with
  | .success body => .ok (some body)
  | .failure status => if status = 404 then .ok none else .error .RemoteUnavailable
  | .netError => .error .RemoteUnavailable

/-- Edge variant `fetchFromGitHub(filePath, githubToken)`: throws on
every non-ok response, with a distinct error for 404. -/
def fetchFromGitHub (store : StoreNR) (filePath : String) :
    Except EdgeFetchErr String :=
  match store filePath with
  | .success body => .ok body
  | .failure status =>
    if status = 404 then .error (.fileNotFound filePath)
    else .error (.apiError filePath status)
  | .netError => .error .network

/-- Prefix test on character lists (structurally recursive so that the
kernel can evaluate it on concrete strings). -/
def listIsPref : List Char → List Char → Bool
  | [], _ => true
  | _ :: _, [] => false
  | a :: as, b :: bs => a == b && listIsPref as bs

/-- JavaScript `s.startsWith(p)` over the character-sequence model. -/
def strStartsWith (s p : String) : Bool := listIsPref p.data s.data

/-- JavaScript `s.endsWith(p)` over the character-sequence model. -/
def strEndsWith (s p : String) : Bool := listIsPref p.data.reverse s.data.reverse

/-- JavaScript `s.slice(n)`: drop the first `n` characters. -/
def strDrop (s : String) (n : Nat) : String := ⟨s.data.drop n⟩

/-- JavaScript `s.slice(0, -n)`: drop the last `n` characters. -/
def strDropRight (s : String) (n : Nat) : String :=
  ⟨s.data.take (s.data.length - n)⟩

/-- The path-derived customer id of v1.5/v1.2: strip one leading `/`,
and if the remainder is non-empty (truthy), strip one trailing `/` and
then a trailing `.js`; otherwise `customerId` stays `null`. -/
def pathDerivedId (pathname : String) : Option String :=
  let p1 := if strStartsWith pathname "/" then strDrop pathname 1 else pathname
  if p1 = "" then none
  else
    let p2 := if strEndsWith p1 "/" then strDropRight p1 1 else p1
    let p3 := if strEndsWith p2 ".js" then strDropRight p2 3 else p2
    some p3

/-- v1.5/v1.2 customer id resolution: a truthy `id` query parameter wins;
a null or empty one falls back to the path-derived id. -/
def resolveCustomerId (req : Request) : Option String :=
  match req.query "id" with
  | some q => if q = "" then pathDerivedId req.pathname else some q
  | none => pathDerivedId req.pathname

/-- The three headers of the v1.5 OPTIONS (CORS preflight) response. -/
def corsPreflightHeaders : List (String × String) :=
  [("Access-Control-Allow-Origin", "*"),
   ("Access-Control-Allow-Methods", "GET, OPTIONS"),
   ("Access-Control-Allow-Headers", "Content-Type")]

/-- v1.5 OPTIONS response: 204, empty body, preflight headers. -/
def optsResp : Response := ⟨204, "", corsPreflightHeaders⟩

/-- v1.5 400 body (single-quoted literal in the source). -/
def body400V15 : String := "// Error: Customer ID could not be determined."

/-- v1.5 404 body: a single-quoted literal, so `$\x7bGIT_BRANCH\x7d` is
literal text, not an interpolation. -/
def body404V15 : String :=
  "// Error: Default configuration could not be found in branch \"$\x7bGIT_BRANCH\x7d\"."

/-- v1.5 core-script-missing 500 body: also a single-quoted literal with
the uninterpolated `$\x7bGIT_BRANCH\x7d`. -/
def body500CoreV15 : String :=
  "// Error: Core chatbot script could not be loaded from branch \"$\x7bGIT_BRANCH\x7d\"."

/-- v1.5 catch-path 500 body. -/
def bodyCatchV15 : String := "// Server Error: Could not process the request."

/-- v1.5 400 response: note that no header has been set at that point. -/
def resp400V15 : Response := ⟨400, body400V15, []⟩

/-- v1.5 404 response: returned before any `setHeader` call, so with no
headers. -/
def resp404V15 : Response := ⟨404, body404V15, []⟩

/-- v1.5 core-script-missing 500 response: also returned before any
`setHeader` call. -/
def resp500CoreV15 : Response := ⟨500, body500CoreV15, []⟩

/-- v1.5 catch response: the catch block sets the CORS header before
sending the generic 500. -/
def catchRespV15 : Response :=
  ⟨500, bodyCatchV15, [("Access-Control-Allow-Origin", "*")]⟩

/-- v1.5 success headers, in `setHeader` order: CORS, content type, and
the cache policy chosen from `VERCEL_ENV`. -/
def successHeadersV15 (env : Env) : List (String × String) :=
  [("Access-Control-Allow-Origin", "*"),
   ("Content-Type", "application/javascript; charset=utf-8"),
   ("Cache-Control",
     if vercelEnvD env ≠ "production" then "no-cache, no-store, must-revalidate"
     else "s-maxage=3600, stale-while-revalidate")]

/-- v1.5 `finalScript`: an env/branch comment line, then the config
assignment, a blank line, and the core script. -/
def finalScriptV15 (env : Env) (cfg core : String) : String :=
  "// Vercel Env: " ++ vercelEnvD env ++ " | Branch: " ++ gitBranch env ++
    "\nwindow.ChatWidgetConfig = " ++ cfg ++ ";\n\n" ++ core

/-- The two requests `Promise.all` issues in v1.5, in array order, both
at the resolved branch. -/
def traceTwo (env : Env) (cid : String) : List (String × String) :=
  [(coreScriptPath, gitBranch env), (customerConfigPath cid, gitBranch env)]

/-- The v1.5 trace when the sequential default-config fallback fetch was
also issued. -/
def traceThree (env : Env) (cid : String) : List (String × String) :=
  traceTwo env cid ++ [(defaultConfigPath, gitBranch env)]

/-- The tail of the v1.5 handler once the config content is resolved:
the `!coreJsContent` check, then assembly of `finalScript` and the
success headers. -/
def assembleV15 (env : Env) (coreC : Option String) (cfg : String)
    (tr : List (String × String)) : Response × List (String × String) :=
  if coreC.getD "" = "" then (resp500CoreV15, tr)
  else (⟨200, finalScriptV15 env cfg (coreC.getD ""), successHeadersV15 env⟩, tr)

/-- The v1.5 `handler(request, response)` from `api/loader.js` lines
39-124, with its fetch trace.  The OPTIONS preflight branch comes before
everything; then customer-id resolution, the joint `Promise.all` fetch
of core script and customer config at `GIT_BRANCH` (a rejection of
either reaches the catch block), the sequential default-config fallback
when the customer config is falsy, and assembly. -/
def handlerV15 (env : Env) (store : Store) (req : Request) :
    Response × List (String × String) :=
  if req.method = "OPTIONS" then (optsResp, [])
  else
    match resolveCustomerId req with
    | none => (resp400V15, [])
    | some cid =>
      if cid = "" then (resp400V15, [])
      else
        match getFileFromGitHub store coreScriptPath (gitBranch env),
              getFileFromGitHub store (customerConfigPath cid) (gitBranch env) with
        | .error _, _ => (catchRespV15, traceTwo env cid)
        | .ok _, .error _ => (catchRespV15, traceTwo env cid)
        | .ok coreC, .ok custC =>
          if custC.getD "" = "" then
            match getFileFromGitHub store defaultConfigPath (gitBranch env) with
            | .error _ => (catchRespV15, traceThree env cid)
            | .ok defC =>
              if defC.getD "" = "" then (resp404V15, traceThree env cid)
              else assembleV15 env coreC (defC.getD "") (traceThree env cid)
          else assembleV15 env coreC (custC.getD "") (traceTwo env cid)

/-- v1.2 catch response (no header is set in its catch block). -/
def catchRespV12 : Response :=
  ⟨500, "// Server Error: Could not process the request.", []⟩

/-- v1.2 success headers, in `setHeader` order. -/
def successHeadersV12 : List (String × String) :=
  [("Content-Type", "application/javascript; charset=utf-8"),
   ("Cache-Control", "s-maxage=3600, stale-while-revalidate")]

/-- The tail of the v1.2 handler once the config content is resolved. -/
def assembleV12 (coreC : Option String) (cfg : String) (tr : List String) :
    Response × List String :=
  if coreC.getD "" = "" then
    (⟨500, "Error: Core chatbot script could not be loaded.", []⟩, tr)
  else
    (⟨200, "window.ChatWidgetConfig = " ++ cfg ++ ";\n\n" ++ coreC.getD "",
      successHeadersV12⟩, tr)

/-- The v1.2 `handler` from `src/unnamed/part_000`: same pipeline as
v1.5 but with no OPTIONS branch, no branch/ref, no CORS header, the
fixed production cache header, and unprefixed error bodies. -/
def handlerV12 (store : StoreNR) (req : Request) : Response × List String :=
  match resolveCustomerId req with
  | none => (⟨400, "Error: Customer ID could not be determined.", []⟩, [])
  | some cid =>
    if cid = "" then (⟨400, "Error: Customer ID could not be determined.", []⟩, [])
    else
      match getFileFromGitHubNR store coreScriptPath,
            getFileFromGitHubNR store (customerConfigPath cid) with
      | .error _, _ => (catchRespV12, [coreScriptPath, customerConfigPath cid])
      | .ok _, .error _ => (catchRespV12, [coreScriptPath, customerConfigPath cid])
      | .ok coreC, .ok custC =>
        if custC.getD "" = "" then
          match getFileFromGitHubNR store defaultConfigPath with
          | .error _ =>
            (catchRespV12, [coreScriptPath, customerConfigPath cid, defaultConfigPath])
          | .ok defC =>
            if defC.getD "" = "" then
              (⟨404, "Error: Default configuration could not be found.", []⟩,
               [coreScriptPath, customerConfigPath cid, defaultConfigPath])
            else assembleV12 coreC (defC.getD "")
              [coreScriptPath, customerConfigPath cid, defaultConfigPath]
        else assembleV12 coreC (custC.getD "")
          [coreScriptPath, customerConfigPath cid]

/-- Edge variant customer id: `searchParams.get('id') || 'default'`. -/
def edgeCustomerId (req : Request) : String :=
  match req.query "id" with
  | some q => if q = "" then "default" else q
  | none => "default"

/-- Edge variant id validation: the regex `[a-zA-Z0-9_-]+` anchored at
both ends. -/
def isValidCustomerId (s : String) : Bool :=
  !s.data.isEmpty && s.data.all (fun c => c.isAlphanum || c = '_' || c = '-')

/-- The edge variant config promise: the customer-config fetch with a
`.catch` that falls back to fetching the default config on ANY error
(404 or otherwise). -/
def edgeConfigResult (store : StoreNR) (cid : String) :
    Except EdgeFetchErr String :=
  match fetchFromGitHub store (customerConfigPath cid) with
  | .ok s => .ok s
  | .error _ => fetchFromGitHub store defaultConfigPath

/-- Requests issued by the edge handler: config and core in
`Promise.all` array order, then the fallback fetch when the config fetch
rejected. -/
def edgeTrace (store : StoreNR) (cid : String) : List String :=
  [customerConfigPath cid, coreScriptPath] ++
    (match fetchFromGitHub store (customerConfigPath cid) with
     | .ok _ => []
     | .error _ => [defaultConfigPath])

/-- Edge variant success headers. -/
def edgeSuccessHeaders : List (String × String) :=
  [("Content-Type", "application/javascript; charset=utf-8"),
   ("Cache-Control", "public, s-maxage=3600, max-age=300, stale-while-revalidate")]

/-- The edge-runtime `handler(req)` from `api/loader.js` lines 156-199:
id from the query (defaulting to `default`), regex validation, joint
fetch of config (with default fallback on any error) and core script,
then assembly; any error left over reaches the catch block as a 500. -/
def edgeHandler (store : StoreNR) (req : Request) : Response × List String :=
  if isValidCustomerId (edgeCustomerId req) then
    match edgeConfigResult store (edgeCustomerId req),
          fetchFromGitHub store coreScriptPath with
    | .ok cfg, .ok coreC =>
      (⟨200, "window.ChatWidgetConfig = " ++ cfg ++ ";\n\n" ++ coreC,
        edgeSuccessHeaders⟩, edgeTrace store (edgeCustomerId req))
    | .error _, _ =>
      (⟨500, "// Error: Could not build chatbot script.", []⟩,
       edgeTrace store (edgeCustomerId req))
    | .ok _, .error _ =>
      (⟨500, "// Error: Could not build chatbot script.", []⟩,
       edgeTrace store (edgeCustomerId req))
  else (⟨400, "// Error: Invalid customer ID format.", []⟩, [])

/-!
## Concrete fixtures

Environments, requests and stores used to instantiate the theorems on
concrete inputs.
-/

/-- Deployment with neither `VERCEL_GIT_COMMIT_REF` nor `VERCEL_ENV`
set: branch defaults to `main`, environment to `development`. -/
def envDev : Env := ⟨some "tok", some "owner", some "repo", none, none⟩

/-- Production deployment on branch `main`. -/
def envProdMain : Env :=
  ⟨some "tok", some "owner", some "repo", some "main", some "production"⟩

/-- Production deployment on branch `branch-a`. -/
def envBranchA : Env :=
  ⟨some "tok", some "owner", some "repo", some "branch-a", some "production"⟩

/-- Production deployment on branch `branch-b`. -/
def envBranchB : Env :=
  ⟨some "tok", some "owner", some "repo", some "branch-b", some "production"⟩

/-- `GET /acme` with no query parameters. -/
def reqGetAcme : Request := ⟨"GET", "/acme", fun _ => none⟩

/-- `GET /` with no query parameters: no customer id is derivable. -/
def reqNoId : Request := ⟨"GET", "/", fun _ => none⟩

/-- `OPTIONS /acme`. -/
def reqOptions : Request := ⟨"OPTIONS", "/acme", fun _ => none⟩

/-- `GET /path-customer?id=acme`: the path also encodes an id. -/
def reqIdOverride : Request :=
  ⟨"GET", "/path-customer", fun k => if k = "id" then some "acme" else none⟩

/-- `GET /?id=acme&bp_branch=test`: carries the branch-override query
parameter described by the spec. -/
def reqWithBranchParam : Request :=
  ⟨"GET", "/",
   fun k => if k = "id" then some "acme"
            else if k = "bp_branch" then some "test" else none⟩

/-- Store where the core script, the customer config of every customer,
and the default config are all present at every ref. -/
def storeHappy : Store := fun path _ =>
  if path = coreScriptPath then .success "coreJS"
  else if path = defaultConfigPath then .success "defaultCfg"
  else .success "acmeCfg"

/-- Store where only customer configs are missing (404): core script and
default config are present at every ref. -/
def storeNoCustomer : Store := fun path _ =>
  if path = coreScriptPath then .success "coreJS"
  else if path = defaultConfigPath then .success "defaultCfg"
  else .failure 404

/-- Store where both customer and default configs are missing but the
core script is present. -/
def storeNoConfigs : Store := fun path _ =>
  if path = coreScriptPath then .success "coreJS" else .failure 404

/-- Store where only the default config is present: the core script and
every customer config answer 404. -/
def storeDefaultOnly : Store := fun path _ =>
  if path = defaultConfigPath then .success "defaultCfg" else .failure 404

/-- Store where the core-script fetch fails at transport level and both
configs answer 404. -/
def storeCoreDown : Store := fun path _ =>
  if path = coreScriptPath then .netError else .failure 404

/-- Store where the core script is present but every config fetch fails
at transport level. -/
def storeCustomerDown : Store := fun path _ =>
  if path = coreScriptPath then .success "coreJS" else .netError

/-- Ref-less store answering 404 for every path. -/
def storeNR404 : StoreNR := fun _ => .failure 404

/-- Ref-less store where the customer config answers HTTP 500 while the
core script and the default config are present. -/
def storeEdgeCustomer500 : StoreNR := fun path =>
  if path = coreScriptPath then .success "coreJS"
  else if path = defaultConfigPath then .success "defaultCfg"
  else .failure 500

/-- Modelled from the spec: the configured allow-list of non-production
branches ("a configured allow-list of non-production branches",
example parameter `bp_branch` in the external-interface section).  No
such allow-list, and no read of any branch-override query parameter,
exists anywhere in the source; this definition only instantiates the
claim so that it can be compared with what the code does. -/
def specBranchAllowList : List String := ["test"]

/-!
## Shape lemmas for the v1.5 handler
-/

/-- `assembleV15` returns either the core-script-missing 500 or the
assembled 200 response. -/
theorem assembleV15_fst (env : Env) (coreC : Option String) (cfg : String)
    (tr : List (String × String)) :
    (assembleV15 env coreC cfg tr).1 = resp500CoreV15 ∨
    (assembleV15 env coreC cfg tr).1 =
      ⟨200, finalScriptV15 env cfg (coreC.getD ""), successHeadersV15 env⟩ := by
  unfold assembleV15
  split
  · exact Or.inl rfl
  · exact Or.inr rfl

/-- `assembleV15` does not change the fetch trace. -/
theorem assembleV15_snd (env : Env) (coreC : Option String) (cfg : String)
    (tr : List (String × String)) : (assembleV15 env coreC cfg tr).2 = tr := by
  unfold assembleV15
  split <;> rfl

/-- Every v1.5 response is one of: the OPTIONS 204, the 400, the
catch-path 500, the 404, the core-script-missing 500, or an assembled
200. -/
theorem handlerV15_cases (env : Env) (store : Store) (req : Request) :
    (handlerV15 env store req).1 = optsResp ∨
    (handlerV15 env store req).1 = resp400V15 ∨
    (handlerV15 env store req).1 = catchRespV15 ∨
    (handlerV15 env store req).1 = resp404V15 ∨
    (handlerV15 env store req).1 = resp500CoreV15 ∨
    ∃ cfg core, (handlerV15 env store req).1 =
      ⟨200, finalScriptV15 env cfg core, successHeadersV15 env⟩ := by
  unfold handlerV15
  split
  · exact Or.inl rfl
  · split
    · exact Or.inr (Or.inl rfl)
    · split
      · exact Or.inr (Or.inl rfl)
      · split
        · exact Or.inr (Or.inr (Or.inl rfl))
        · exact Or.inr (Or.inr (Or.inl rfl))
        · split
          · split
            · exact Or.inr (Or.inr (Or.inl rfl))
            · split
              · exact Or.inr (Or.inr (Or.inr (Or.inl rfl)))
              · rcases assembleV15_fst env _ _ _ with h | h
                · exact Or.inr (Or.inr (Or.inr (Or.inr (Or.inl h))))
                · exact Or.inr (Or.inr (Or.inr (Or.inr (Or.inr ⟨_, _, h⟩))))
          · rcases assembleV15_fst env _ _ _ with h | h
            · exact Or.inr (Or.inr (Or.inr (Or.inr (Or.inl h))))
            · exact Or.inr (Or.inr (Or.inr (Or.inr (Or.inr ⟨_, _, h⟩))))

/-- The v1.5 fetch trace is empty, the parallel pair, or the parallel
pair followed by the default-config fallback. -/
theorem handlerV15_trace_cases (env : Env) (store : Store) (req : Request) :
    (handlerV15 env store req).2 = [] ∨
    (∃ cid, (handlerV15 env store req).2 = traceTwo env cid) ∨
    (∃ cid, (handlerV15 env store req).2 = traceThree env cid) := by
  unfold handlerV15
  split
  · exact Or.inl rfl
  · split
    · exact Or.inl rfl
    · split
      · exact Or.inl rfl
      · split
        · exact Or.inr (Or.inl ⟨_, rfl⟩)
        · exact Or.inr (Or.inl ⟨_, rfl⟩)
        · split
          · split
            · exact Or.inr (Or.inr ⟨_, rfl⟩)
            · split
              · exact Or.inr (Or.inr ⟨_, rfl⟩)
              · exact Or.inr (Or.inr ⟨_, assembleV15_snd env _ _ _⟩)
          · exact Or.inr (Or.inl ⟨_, assembleV15_snd env _ _ _⟩)

/-- Every request in `traceTwo` is addressed at the resolved branch. -/
theorem traceTwo_ref (env : Env) (cid : String) :
    ∀ pr ∈ traceTwo env cid, pr.2 = gitBranch env := by
  intro pr hpr
  simp [traceTwo] at hpr
  rcases hpr with rfl | rfl <;> rfl

/-- Every request in `traceThree` is addressed at the resolved branch. -/
theorem traceThree_ref (env : Env) (cid : String) :
    ∀ pr ∈ traceThree env cid, pr.2 = gitBranch env := by
  intro pr hpr
  simp [traceThree, traceTwo] at hpr
  rcases hpr with rfl | rfl | rfl <;> rfl

/-- Inversion of the v1.5 response by status code: 400, 404 and 200
identify their branch, and a 500 is the catch path or the missing core
script. -/
theorem handlerV15_status_inv (env : Env) (store : Store) (req : Request) :
    ((handlerV15 env store req).1.status = 400 →
      (handlerV15 env store req).1 = resp400V15) ∧
    ((handlerV15 env store req).1.status = 404 →
      (handlerV15 env store req).1 = resp404V15) ∧
    ((handlerV15 env store req).1.status = 500 →
      (handlerV15 env store req).1 = catchRespV15 ∨
      (handlerV15 env store req).1 = resp500CoreV15) ∧
    ((handlerV15 env store req).1.status = 200 →
      (handlerV15 env store req).1.headers = successHeadersV15 env) := by
  rcases handlerV15_cases env store req with h1 | h1 | h1 | h1 | h1 | ⟨cfg, core, h1⟩ <;>
    rw [h1] <;>
    refine ⟨?_, ?_, ?_, ?_⟩ <;> intro h <;>
    first
      | rfl
      | exact Or.inl rfl
      | exact Or.inr rfl
      | simp [optsResp, resp400V15, catchRespV15, resp404V15, resp500CoreV15] at h

/-- String concatenation is associative (over the character-sequence
model). -/
theorem strAppendAssoc : ∀ a b c : String, a ++ b ++ c = a ++ (b ++ c) := by
  intro ⟨as⟩ ⟨bs⟩ ⟨cs⟩
  show String.mk (as ++ bs ++ cs) = String.mk (as ++ (bs ++ cs))
  rw [List.append_assoc]

/-!
## Claims
-/

/-- C8 (confirmed): for every inbound request with method OPTIONS,
regardless of path and query parameters, the v1.5 handler
short-circuits before any other processing and returns status 204 with
an empty body and CORS headers, performing no fetches (empty fetch
trace). -/
theorem c8_theorem (env : Env) (store : Store) (req : Request)
    (h : req.method = "OPTIONS") :
    handlerV15 env store req = (optsResp, []) ∧
    optsResp.status = 204 ∧ optsResp.body = "" ∧
    ("Access-Control-Allow-Origin", "*") ∈ optsResp.headers := by
  refine ⟨?_, rfl, rfl, ?_⟩
  · simp [handlerV15, h]
  · simp [optsResp, corsPreflightHeaders]

/-- Witness for C8 at `OPTIONS /acme` with all files present. -/
theorem c8_witness :
    handlerV15 envDev storeHappy reqOptions = (optsResp, []) ∧
    optsResp.status = 204 ∧ optsResp.body = "" ∧
    ("Access-Control-Allow-Origin", "*") ∈ optsResp.headers :=
  c8_theorem envDev storeHappy reqOptions rfl

/-- C9 (confirmed): a non-empty `id` query parameter determines the
customer identifier even when the path also encodes one; otherwise the
identifier is the path with a leading `/` stripped, then one trailing
`/` stripped if present, then a trailing `.js` stripped if present; in
particular `/acme`, `/acme/` and `/acme.js` all resolve to `acme`. -/
theorem c9_theorem :
    (∀ (req : Request) (q : String), req.query "id" = some q → ¬ q = "" →
      resolveCustomerId req = some q) ∧
    (∀ req : Request, (req.query "id" = none ∨ req.query "id" = some "") →
      resolveCustomerId req = pathDerivedId req.pathname) ∧
    pathDerivedId "/acme" = some "acme" ∧
    pathDerivedId "/acme/" = some "acme" ∧
    pathDerivedId "/acme.js" = some "acme" := by
  refine ⟨?_, ?_, by decide, by decide, by decide⟩
  · intro req q hq hne
    simp [resolveCustomerId, hq, hne]
  · intro req h
    rcases h with h | h <;> simp [resolveCustomerId, h]

/-- Witness for C9: the `id` parameter overrides the path-encoded id,
and `GET /acme` resolves via the path. -/
theorem c9_witness :
    resolveCustomerId reqIdOverride = some "acme" ∧
    resolveCustomerId reqGetAcme = pathDerivedId "/acme" :=
  ⟨c9_theorem.1 reqIdOverride "acme" rfl (by decide),
   c9_theorem.2.1 reqGetAcme (Or.inl rfl)⟩

/-- C4 counterexample: in the edge variant `fetchFromGitHub`, an HTTP
404 from the content store yields a thrown file-not-found error, not
the recoverable not-found sentinel — while `getFileFromGitHub` on the
same 404 yields the `none` sentinel. -/
theorem c4_counterexample :
    storeNR404 (customerConfigPath "acme") = .failure 404 ∧
    fetchFromGitHub storeNR404 (customerConfigPath "acme") =
      .error (.fileNotFound (customerConfigPath "acme")) ∧
    getFileFromGitHub storeDefaultOnly (customerConfigPath "acme") "main" = .ok none :=
  ⟨rfl, rfl, rfl⟩

/-- C4 (corrected): in `getFileFromGitHub` (v1.5, and the ref-less v1.2
variant), an HTTP 404 yields the `none` not-found sentinel, a success
yields the content, and any other non-success status or transport
failure yields the fatal `RemoteUnavailable` error; one call issues
exactly one request (no retry).  In the edge variant `fetchFromGitHub`,
an HTTP 404 instead throws a distinct file-not-found error and any
other non-success status throws an API error. -/
theorem c4_theorem :
    (∀ (store : Store) (path ref body : String),
      store path ref = .success body →
      getFileFromGitHub store path ref = .ok (some body)) ∧
    (∀ (store : Store) (path ref : String),
      store path ref = .failure 404 →
      getFileFromGitHub store path ref = .ok none) ∧
    (∀ (store : Store) (path ref : String) (st : Nat), ¬ st = 404 →
      store path ref = .failure st →
      getFileFromGitHub store path ref = .error .RemoteUnavailable) ∧
    (∀ (store : Store) (path ref : String),
      store path ref = .netError →
      getFileFromGitHub store path ref = .error .RemoteUnavailable) ∧
    (∀ (store : Store) (path ref : String),
      (getFileFromGitHubT store path ref).2 = [(path, ref)]) ∧
    (∀ (store : StoreNR) (path : String),
      store path = .failure 404 → getFileFromGitHubNR store path = .ok none) ∧
    (∀ (store : StoreNR) (path : String) (st : Nat), ¬ st = 404 →
      store path = .failure st →
      getFileFromGitHubNR store path = .error .RemoteUnavailable) ∧
    (∀ (store : StoreNR) (path : String),
      store path = .failure 404 →
      fetchFromGitHub store path = .error (.fileNotFound path)) ∧
    (∀ (store : StoreNR) (path : String) (st : Nat), ¬ st = 404 →
      store path = .failure st →
      fetchFromGitHub store path = .error (.apiError path st)) := by
  refine ⟨?_, ?_, ?_, ?_, ?_, ?_, ?_, ?_, ?_⟩
  · intro store path ref body h; simp [getFileFromGitHub, h]
  · intro store path ref h; simp [getFileFromGitHub, h]
  · intro store path ref st hst h; simp [getFileFromGitHub, h, hst]
  · intro store path ref h; simp [getFileFromGitHub, h]
  · intro store path ref; rfl
  · intro store path h; simp [getFileFromGitHubNR, h]
  · intro store path st hst h; simp [getFileFromGitHubNR, h, hst]
  · intro store path h; simp [fetchFromGitHub, h]
  · intro store path st hst h; simp [fetchFromGitHub, h, hst]

/-- Witness for C4 on concrete stores: a 404 maps to the sentinel, an
HTTP 500 maps to `RemoteUnavailable`, and the trace of one fetch call
is one request. -/
theorem c4_witness :
    getFileFromGitHub storeNoCustomer (customerConfigPath "acme") "main" = .ok none ∧
    getFileFromGitHub (fun _ _ => .failure 503) coreScriptPath "main" =
      .error .RemoteUnavailable ∧
    (getFileFromGitHubT storeNoCustomer coreScriptPath "main").2 =
      [(coreScriptPath, "main")] ∧
    fetchFromGitHub storeNR404 defaultConfigPath =
      .error (.fileNotFound defaultConfigPath) :=
  ⟨c4_theorem.2.1 storeNoCustomer (customerConfigPath "acme") "main" rfl,
   c4_theorem.2.2.1 (fun _ _ => .failure 503) coreScriptPath "main" 503 (by decide) rfl,
   c4_theorem.2.2.2.2.1 storeNoCustomer coreScriptPath "main",
   c4_theorem.2.2.2.2.2.2.2.1 storeNR404 defaultConfigPath rfl⟩

/-- C1 counterexample: customer config not found, default config
present, but the engine script is itself 404 — the third fetch is
issued, yet the response is 500, not 200. -/
theorem c1_counterexample :
    getFileFromGitHub storeDefaultOnly (customerConfigPath "acme") (gitBranch envDev) =
      .ok none ∧
    getFileFromGitHub storeDefaultOnly defaultConfigPath (gitBranch envDev) =
      .ok (some "defaultCfg") ∧
    (handlerV15 envDev storeDefaultOnly reqGetAcme).2 = traceThree envDev "acme" ∧
    (handlerV15 envDev storeDefaultOnly reqGetAcme).1.status = 500 ∧
    ¬ (handlerV15 envDev storeDefaultOnly reqGetAcme).1.status = 200 :=
  ⟨rfl, rfl, rfl, rfl, by decide⟩

/-- C1 (corrected): when the customer-config fetch returns the
not-found sentinel, the default config exists (non-empty) at the same
ref, and additionally the engine-script fetch returned non-empty
content, the v1.5 handler issues the sequential third fetch for
`configs/default.json` at that ref, binds the default config content in
the assembled body, and responds 200. -/
theorem c1_theorem (env : Env) (store : Store) (req : Request)
    (cid d core : String)
    (hm : ¬ req.method = "OPTIONS")
    (hid : resolveCustomerId req = some cid) (hcid : ¬ cid = "")
    (hcust : getFileFromGitHub store (customerConfigPath cid) (gitBranch env) = .ok none)
    (hdef : getFileFromGitHub store defaultConfigPath (gitBranch env) = .ok (some d))
    (hd : ¬ d = "")
    (hcore : getFileFromGitHub store coreScriptPath (gitBranch env) = .ok (some core))
    (hcore2 : ¬ core = "") :
    handlerV15 env store req =
      (⟨200, finalScriptV15 env d core, successHeadersV15 env⟩, traceThree env cid) := by
  simp [handlerV15, hm, hid, hcid, hcore, hcust, hdef, assembleV15, hd, hcore2]

/-- Witness for C1: `GET /acme` with the customer config missing but
the default config and core script present, on the default
environment. -/
theorem c1_witness :
    handlerV15 envDev storeNoCustomer reqGetAcme =
      (⟨200, finalScriptV15 envDev "defaultCfg" "coreJS", successHeadersV15 envDev⟩,
       traceThree envDev "acme") :=
  c1_theorem envDev storeNoCustomer reqGetAcme "acme" "defaultCfg" "coreJS"
    (by decide) rfl (by decide) rfl rfl (by decide) rfl (by decide)

/-- C3 counterexample: both configs answer 404 but the engine-script
fetch fails at transport level — `Promise.all` rejects and the response
is the generic 500, not 404. -/
theorem c3_counterexample :
    getFileFromGitHub storeCoreDown (customerConfigPath "acme") (gitBranch envDev) =
      .ok none ∧
    getFileFromGitHub storeCoreDown defaultConfigPath (gitBranch envDev) = .ok none ∧
    getFileFromGitHub storeCoreDown coreScriptPath (gitBranch envDev) =
      .error .RemoteUnavailable ∧
    (handlerV15 envDev storeCoreDown reqGetAcme).1.status = 500 ∧
    ¬ (handlerV15 envDev storeCoreDown reqGetAcme).1.status = 404 :=
  ⟨rfl, rfl, rfl, rfl, by decide⟩

/-- C3 (corrected): when the customer config and the default config
fetches both return the not-found sentinel, the v1.5 response is 404
for every non-throwing outcome of the engine-script fetch (content or
not-found); but when the engine-script fetch fails with
`RemoteUnavailable`, `Promise.all` rejects before the fallback and the
response is the generic 500 instead. -/
theorem c3_theorem (env : Env) (store : Store) (req : Request) (cid : String)
    (hm : ¬ req.method = "OPTIONS")
    (hid : resolveCustomerId req = some cid) (hcid : ¬ cid = "")
    (hcust : getFileFromGitHub store (customerConfigPath cid) (gitBranch env) = .ok none)
    (hdef : getFileFromGitHub store defaultConfigPath (gitBranch env) = .ok none) :
    (∀ c : Option String,
      getFileFromGitHub store coreScriptPath (gitBranch env) = .ok c →
      handlerV15 env store req = (resp404V15, traceThree env cid)) ∧
    (getFileFromGitHub store coreScriptPath (gitBranch env) = .error .RemoteUnavailable →
      handlerV15 env store req = (catchRespV15, traceTwo env cid)) := by
  constructor
  · intro c hcore
    simp [handlerV15, hm, hid, hcid, hcore, hcust, hdef]
  · intro hcore
    simp [handlerV15, hm, hid, hcid, hcore, hcust]

/-- Witness for C3: the 404 outcome with the core script present, and
the 500 outcome with the core-script fetch failing. -/
theorem c3_witness :
    handlerV15 envDev storeNoConfigs reqGetAcme = (resp404V15, traceThree envDev "acme") ∧
    handlerV15 envDev storeCoreDown reqGetAcme = (catchRespV15, traceTwo envDev "acme") :=
  ⟨(c3_theorem envDev storeNoConfigs reqGetAcme "acme"
      (by decide) rfl (by decide) rfl rfl).1 (some "coreJS") rfl,
   (c3_theorem envDev storeCoreDown reqGetAcme "acme"
      (by decide) rfl (by decide) rfl rfl).2 rfl⟩

/-- C5 counterexample: in the edge variant, an HTTP 500
(`RemoteUnavailable`-class failure) on the customer-config fetch is
caught by the `.catch`, triggers the default-config fallback fetch, and
the request completes with status 200 — the error neither propagates
nor yields a 500. -/
theorem c5_counterexample :
    storeEdgeCustomer500 (customerConfigPath "acme") = .failure 500 ∧
    fetchFromGitHub storeEdgeCustomer500 (customerConfigPath "acme") =
      .error (.apiError (customerConfigPath "acme") 500) ∧
    (edgeHandler storeEdgeCustomer500 reqIdOverride).1.status = 200 ∧
    defaultConfigPath ∈ (edgeHandler storeEdgeCustomer500 reqIdOverride).2 :=
  ⟨rfl, rfl, rfl, by decide⟩

/-- C5 (corrected): in the v1.5 handler a `RemoteUnavailable` from the
customer-config fetch does propagate to the catch block — the response
is the generic 500 with no default-config fallback fetch in the trace;
but in the edge variant the `.catch` on the customer-config fetch
swallows any error, including `RemoteUnavailable`, triggers the
default-config fallback, and can produce a 200. -/
theorem c5_theorem :
    (∀ (env : Env) (store : Store) (req : Request) (cid : String),
      ¬ req.method = "OPTIONS" →
      resolveCustomerId req = some cid → ¬ cid = "" →
      getFileFromGitHub store (customerConfigPath cid) (gitBranch env) =
        .error .RemoteUnavailable →
      handlerV15 env store req = (catchRespV15, traceTwo env cid)) ∧
    (∀ (store : StoreNR) (req : Request) (st : Nat) (d c : String),
      ¬ st = 404 →
      store (customerConfigPath (edgeCustomerId req)) = .failure st →
      isValidCustomerId (edgeCustomerId req) = true →
      fetchFromGitHub store defaultConfigPath = .ok d →
      fetchFromGitHub store coreScriptPath = .ok c →
      edgeHandler store req =
        (⟨200, "window.ChatWidgetConfig = " ++ d ++ ";\n\n" ++ c, edgeSuccessHeaders⟩,
         [customerConfigPath (edgeCustomerId req), coreScriptPath,
          defaultConfigPath])) := by
  constructor
  · intro env store req cid hm hid hcid hcust
    cases hcore : getFileFromGitHub store coreScriptPath (gitBranch env) with
    | error e => simp [handlerV15, hm, hid, hcid, hcore, hcust]
    | ok c => simp [handlerV15, hm, hid, hcid, hcore, hcust]
  · intro store req st d c hst hcust hvalid hdef hcore
    have hfc : fetchFromGitHub store (customerConfigPath (edgeCustomerId req)) =
        .error (.apiError (customerConfigPath (edgeCustomerId req)) st) := by
      simp [fetchFromGitHub, hcust, hst]
    simp [edgeHandler, hvalid, edgeConfigResult, edgeTrace, hfc, hdef, hcore]

/-- Witness for C5: the propagating 500 in v1.5, and the fallback 200
in the edge variant, on concrete stores. -/
theorem c5_witness :
    handlerV15 envDev storeCustomerDown reqGetAcme =
      (catchRespV15, traceTwo envDev "acme") ∧
    edgeHandler storeEdgeCustomer500 reqIdOverride =
      (⟨200, "window.ChatWidgetConfig = defaultCfg;\n\ncoreJS", edgeSuccessHeaders⟩,
       [customerConfigPath "acme", coreScriptPath, defaultConfigPath]) :=
  ⟨c5_theorem.1 envDev storeCustomerDown reqGetAcme "acme"
      (by decide) rfl (by decide) rfl,
   c5_theorem.2 storeEdgeCustomer500 reqIdOverride 500 "defaultCfg" "coreJS"
      (by decide) rfl rfl rfl rfl⟩

/-- C2 counterexample: a request carrying `bp_branch=test`, with `test`
a member of the (spec-modelled) allow-list, still has every fetch
issued at the environment branch `main`, and in a production
environment the response carries the shared-cache directive, not the
test-mode no-cache directive. -/
theorem c2_counterexample :
    reqWithBranchParam.query "bp_branch" = some "test" ∧
    "test" ∈ specBranchAllowList ∧
    ¬ gitBranch envProdMain = "test" ∧
    (handlerV15 envProdMain storeHappy reqWithBranchParam).2 =
      [(coreScriptPath, "main"), (customerConfigPath "acme", "main")] ∧
    (handlerV15 envProdMain storeHappy reqWithBranchParam).1.headers =
      [("Access-Control-Allow-Origin", "*"),
       ("Content-Type", "application/javascript; charset=utf-8"),
       ("Cache-Control", "s-maxage=3600, stale-while-revalidate")] :=
  ⟨rfl, by decide, by decide, rfl, rfl⟩

/-- C2 (corrected): the v1.5 handler reads no branch-override query
parameter: every fetch it issues uses the environment-derived
`GIT_BRANCH` (`VERCEL_GIT_COMMIT_REF`, defaulting to `main`), and cache
mode is likewise environment-derived — a 200 response carries the
no-cache directive iff `VERCEL_ENV` is not `production`, and the
shared-cache directive otherwise. -/
theorem c2_theorem (env : Env) (store : Store) (req : Request) :
    (∀ pr ∈ (handlerV15 env store req).2, pr.2 = gitBranch env) ∧
    ((handlerV15 env store req).1.status = 200 →
      (handlerV15 env store req).1.headers = successHeadersV15 env) ∧
    (¬ vercelEnvD env = "production" →
      ("Cache-Control", "no-cache, no-store, must-revalidate") ∈
        successHeadersV15 env) ∧
    (vercelEnvD env = "production" →
      ("Cache-Control", "s-maxage=3600, stale-while-revalidate") ∈
        successHeadersV15 env) := by
  refine ⟨?_, (handlerV15_status_inv env store req).2.2.2, ?_, ?_⟩
  · rcases handlerV15_trace_cases env store req with h | ⟨cid, h⟩ | ⟨cid, h⟩ <;> rw [h]
    · simp
    · exact traceTwo_ref env cid
    · exact traceThree_ref env cid
  · intro h
    simp [successHeadersV15, h]
  · intro h
    simp [successHeadersV15, h]

/-- Witness for C2 on a production deployment at branch `main` with all
files present. -/
theorem c2_witness :
    ((coreScriptPath, "main") : String × String).2 = gitBranch envProdMain ∧
    (handlerV15 envProdMain storeHappy reqGetAcme).1.headers =
      successHeadersV15 envProdMain ∧
    ("Cache-Control", "s-maxage=3600, stale-while-revalidate") ∈
      successHeadersV15 envProdMain :=
  ⟨(c2_theorem envProdMain storeHappy reqGetAcme).1 (coreScriptPath, "main") (by decide),
   (c2_theorem envProdMain storeHappy reqGetAcme).2.1 rfl,
   (c2_theorem envProdMain storeHappy reqGetAcme).2.2.2 rfl⟩

/-- C6 counterexample: a successful v1.5 response whose body does not
begin with the config-assignment statement — it begins with the
`// Vercel Env: ... | Branch: ...` comment line — and is therefore not
exactly the assignment, blank line and engine script. -/
theorem c6_counterexample :
    (handlerV15 envDev storeHappy reqGetAcme).1.status = 200 ∧
    (handlerV15 envDev storeHappy reqGetAcme).1.body =
      "// Vercel Env: development | Branch: main\nwindow.ChatWidgetConfig = acmeCfg;\n\ncoreJS" ∧
    ¬ (handlerV15 envDev storeHappy reqGetAcme).1.body =
      "window.ChatWidgetConfig = acmeCfg;\n\ncoreJS" :=
  ⟨rfl, rfl, by decide⟩

/-- C6 (corrected): in the v1.2 handler a 200 body is exactly the
assignment statement, a blank line, and the engine script, in that
fixed order and nothing else; in the v1.5 handler that same sequence is
preceded by one comment line identifying the Vercel environment and
branch. -/
theorem c6_theorem :
    (∀ (env : Env) (store : Store) (req : Request) (cid cfg core : String),
      ¬ req.method = "OPTIONS" →
      resolveCustomerId req = some cid → ¬ cid = "" →
      getFileFromGitHub store (customerConfigPath cid) (gitBranch env) =
        .ok (some cfg) → ¬ cfg = "" →
      getFileFromGitHub store coreScriptPath (gitBranch env) = .ok (some core) →
      ¬ core = "" →
      (handlerV15 env store req).1 =
        ⟨200, finalScriptV15 env cfg core, successHeadersV15 env⟩) ∧
    (∀ (env : Env) (cfg core : String),
      finalScriptV15 env cfg core =
        ("// Vercel Env: " ++ vercelEnvD env ++ " | Branch: " ++ gitBranch env ++ "\n") ++
          (("window.ChatWidgetConfig = " ++ cfg ++ ";") ++ "\n\n" ++ core)) ∧
    (∀ (store : StoreNR) (req : Request) (cid cfg core : String),
      resolveCustomerId req = some cid → ¬ cid = "" →
      getFileFromGitHubNR store (customerConfigPath cid) = .ok (some cfg) →
      ¬ cfg = "" →
      getFileFromGitHubNR store coreScriptPath = .ok (some core) → ¬ core = "" →
      (handlerV12 store req).1 =
        ⟨200, ("window.ChatWidgetConfig = " ++ cfg ++ ";") ++ "\n\n" ++ core,
         successHeadersV12⟩) := by
  refine ⟨?_, ?_, ?_⟩
  · intro env store req cid cfg core hm hid hcid hcfg hcfg2 hcore hcore2
    simp [handlerV15, hm, hid, hcid, hcore, hcfg, hcfg2, assembleV15, hcore2]
  · intro env cfg core
    simp only [finalScriptV15, strAppendAssoc,
      show ("\nwindow.ChatWidgetConfig = " : String) =
        "\n" ++ "window.ChatWidgetConfig = " by decide,
      show (";\n\n" : String) = ";" ++ "\n\n" by decide]
  · intro store req cid cfg core hid hcid hcfg hcfg2 hcore hcore2
    simp [handlerV12, hid, hcid, hcore, hcfg, hcfg2, assembleV12, hcore2,
      strAppendAssoc]

/-- Witness for C6: both handlers on concrete happy-path stores. -/
theorem c6_witness :
    (handlerV15 envDev storeHappy reqGetAcme).1 =
      ⟨200, finalScriptV15 envDev "acmeCfg" "coreJS", successHeadersV15 envDev⟩ ∧
    (handlerV12 (fun p => storeHappy p "main") reqGetAcme).1 =
      ⟨200, ("window.ChatWidgetConfig = acmeCfg;") ++ "\n\n" ++ "coreJS",
       successHeadersV12⟩ :=
  ⟨c6_theorem.1 envDev storeHappy reqGetAcme "acme" "acmeCfg" "coreJS"
      (by decide) rfl (by decide) rfl (by decide) rfl (by decide),
   c6_theorem.2.2 (fun p => storeHappy p "main") reqGetAcme "acme" "acmeCfg" "coreJS"
      rfl (by decide) rfl (by decide) rfl (by decide)⟩

/-- C7 (code_bug): contrary to the claim (and to the intent announced
by the v1.5 file header `Full CORS & Environment Fix` and the comment
`Also add CORS header to error responses so the browser can read
them`), the v1.5 handler returns its 400, 404 and
core-script-missing-500 responses before any `setHeader` call, so those
failure responses carry no `Access-Control-Allow-Origin` header at all;
only the catch-path 500 carries it. -/
theorem c7_theorem :
    (handlerV15 envDev storeHappy reqNoId).1.status = 400 ∧
    (handlerV15 envDev storeHappy reqNoId).1.headers = [] ∧
    (handlerV15 envDev storeNoConfigs reqGetAcme).1.status = 404 ∧
    (handlerV15 envDev storeNoConfigs reqGetAcme).1.headers = [] ∧
    (handlerV15 envDev storeDefaultOnly reqGetAcme).1.status = 500 ∧
    (handlerV15 envDev storeDefaultOnly reqGetAcme).1.headers = [] ∧
    (handlerV15 envDev storeCustomerDown reqGetAcme).1.status = 500 ∧
    (handlerV15 envDev storeCustomerDown reqGetAcme).1.headers =
      [("Access-Control-Allow-Origin", "*")] :=
  ⟨rfl, rfl, rfl, rfl, rfl, rfl, rfl, rfl⟩

/-- C10 (confirmed): the v1.5 404 body and engine-script-missing 500
body are fixed constants — identical across any two environments (hence
any two branch values) — and both contain the literal characters
`$\x7bGIT_BRANCH\x7d` (the source uses single-quoted strings, so the
template placeholder is never interpolated). -/
theorem c10_theorem (e1 e2 : Env) (store : Store) (req : Request) :
    ((handlerV15 e1 store req).1.status = 404 →
      (handlerV15 e2 store req).1.status = 404 →
      (handlerV15 e1 store req).1.body = (handlerV15 e2 store req).1.body ∧
      (handlerV15 e1 store req).1.body = body404V15) ∧
    ((handlerV15 e1 store req).1.status = 500 →
      ¬ (handlerV15 e1 store req).1.body = bodyCatchV15 →
      (handlerV15 e1 store req).1.body = body500CoreV15) ∧
    (∃ pre post, body404V15 = pre ++ "$\x7bGIT_BRANCH\x7d" ++ post) ∧
    (∃ pre post, body500CoreV15 = pre ++ "$\x7bGIT_BRANCH\x7d" ++ post) := by
  refine ⟨?_, ?_,
    ⟨"// Error: Default configuration could not be found in branch \"", "\".",
      by decide⟩,
    ⟨"// Error: Core chatbot script could not be loaded from branch \"", "\".",
      by decide⟩⟩
  · intro h1 h2
    have e1h := (handlerV15_status_inv e1 store req).2.1 h1
    have e2h := (handlerV15_status_inv e2 store req).2.1 h2
    rw [e1h, e2h]
    exact ⟨rfl, rfl⟩
  · intro h1 hb
    rcases (handlerV15_status_inv e1 store req).2.2.1 h1 with h | h
    · rw [h] at hb
      exact absurd rfl hb
    · rw [h]
      rfl

/-- Witness for C10: two production environments on different branches
produce the identical constant 404 body, and the engine-missing 500
body is the constant as well. -/
theorem c10_witness :
    (handlerV15 envBranchA storeNoConfigs reqGetAcme).1.body =
      (handlerV15 envBranchB storeNoConfigs reqGetAcme).1.body ∧
    (handlerV15 envBranchA storeNoConfigs reqGetAcme).1.body = body404V15 ∧
    (handlerV15 envBranchA storeDefaultOnly reqGetAcme).1.body = body500CoreV15 :=
  ⟨((c10_theorem envBranchA envBranchB storeNoConfigs reqGetAcme).1 rfl rfl).1,
   ((c10_theorem envBranchA envBranchB storeNoConfigs reqGetAcme).1 rfl rfl).2,
   (c10_theorem envBranchA envBranchB storeDefaultOnly reqGetAcme).2.1 rfl (by decide)⟩

end BellpepperProxy
